import Mathlib

/-!
Shallow embedding of the exercisedb-api administrative scripts:

* the loader (`src/unnamed/part_000`): reads a JSON array of exercise
  records, maps each record to a database row (`mapExerciseToDatabase`),
  filters out rows whose `exercise_id` is already in the store, and
  inserts the remainder in batches (`insertExercisesInBatches`);
* the activator (`src/scripts/activate-basic-exercises.ts`): iterates a
  fixed list of names, searches inactive rows by case-insensitive
  substring, and activates the first match.

Remote-store interactions are modelled by explicit outcome parameters
(success / store error / thrown exception), since the store is an
external collaborator; everything the scripts themselves compute is
translated directly from the source.
-/

namespace ExerciseDB

/-- Source record shape, from the `ExerciseData` interface.  The four
list attributes and the instruction list are optional in the JSON input
(the mapper guards them with `|| []`), so they are modelled as
`Option (List String)`. -/
structure ExerciseData where
  exerciseId : String
  name : String
  gifUrl : String
  targetMuscles : Option (List String)
  bodyParts : Option (List String)
  equipments : Option (List String)
  secondaryMuscles : Option (List String)
  instructions : Option (List String)
deriving Repr, DecidableEq

/-- Row shape, from the `DatabaseExercise` interface. -/
structure DatabaseExercise where
  exercise_id : String
  name : String
  gif_path : String
  target_muscles : List String
  body_parts : List String
  equipments : List String
  secondary_muscles : List String
  instructions : List String
  is_active : Bool
deriving Repr, DecidableEq

/-- `mapExerciseToDatabase` from the loader: derives
`gif_path = "gifs/" ++ exerciseId ++ ".gif"`, defaults each missing list
attribute to `[]` (the `|| []` guards), and sets `is_active := false`
unconditionally. -/
def mapExerciseToDatabase (exercise : ExerciseData) : DatabaseExercise :=
  let gifFileName := exercise.exerciseId ++ ".gif"
  let gif_path := "gifs/" ++ gifFileName
  { exercise_id := exercise.exerciseId
    name := exercise.name
    gif_path := gif_path
    target_muscles := exercise.targetMuscles.getD []
    body_parts := exercise.bodyParts.getD []
    equipments := exercise.equipments.getD []
    secondary_muscles := exercise.secondaryMuscles.getD []
    instructions := exercise.instructions.getD []
    is_active := false }

/-- The batches produced by the loop
`for (let i = 0; i < exercises.length; i += batchSize)` with
`batch = exercises.slice(i, i + batchSize)`.  For `batchSize > 0` each
step takes the next `batchSize` elements; the head/tail formulation
keeps the definition total (the source loop does not terminate for
`batchSize = 0`, so all theorems assume `0 < batchSize`). -/
def chunkList (batchSize : Nat) : List α → List (List α)
  | [] => []
  | x :: xs => (x :: xs.take (batchSize - 1)) :: chunkList batchSize (xs.drop (batchSize - 1))
termination_by l => l.length
decreasing_by simp [List.length_drop]; omega

/-- Outcome of one batch insert call against the store: the call may
succeed, return a store error (`if (error)` branch), or throw (the
`catch` branch). -/
inductive InsertOutcome where
  | success
  | storeError
  | thrown
deriving Repr, DecidableEq

/-- Result of the batch-insert loop: the two counters of
`insertExercisesInBatches`, plus the trace of insert calls issued (each
element is the batch passed to one `.insert(batch)` call, in submission
order). -/
structure BatchRun where
  insertedCount : Nat
  errorCount : Nat
  attempted : List (List DatabaseExercise)
deriving Repr, DecidableEq

/-- The body of the batch loop, one batch per step.  `outcome idx` is
the store's response to the `idx`-th insert call (0-based).  On success
the batch length is added to `insertedCount`; on a store error or a
thrown exception it is added to `errorCount`; in every case the loop
proceeds to the next batch. -/
def runBatchesFrom (outcome : Nat → InsertOutcome) :
    Nat → List (List DatabaseExercise) → BatchRun
  | _, [] => { insertedCount := 0, errorCount := 0, attempted := [] }
  | idx, b :: rest =>
    let s := runBatchesFrom outcome (idx + 1) rest
    match outcome idx with
    | .success =>
      { insertedCount := b.length + s.insertedCount
        errorCount := s.errorCount
        attempted := b :: s.attempted }
    | .storeError =>
      { insertedCount := s.insertedCount
        errorCount := b.length + s.errorCount
        attempted := b :: s.attempted }
    | .thrown =>
      { insertedCount := s.insertedCount
        errorCount := b.length + s.errorCount
        attempted := b :: s.attempted }

/-- `insertExercisesInBatches(exercises, batchSize)`: slices the input
into batches and runs the loop (the loader calls it with the default
`batchSize = 100`). -/
def insertExercisesInBatches (outcome : Nat → InsertOutcome)
    (exercises : List DatabaseExercise) (batchSize : Nat) : BatchRun :=
  runBatchesFrom outcome 0 (chunkList batchSize exercises)

/-- Outcome of the single unbounded `select('exercise_id')` issued by
`checkExistingExercises`: it may succeed with the store's rows, succeed
with null data (the `data?` / `|| []` guard), return a store error, or
throw. -/
inductive QueryResult where
  | ok
  | nullData
  | storeError
  | thrown
deriving Repr, DecidableEq

/-- `checkExistingExercises`: returns the identifiers of all rows in the
store on success; returns `[]` when the data is null, when the store
reports an error, or when an exception is thrown (both failure branches
log and return `[]`).  The store is modelled by the list of
`exercise_id` values it currently holds. -/
def checkExistingExercises (store : List String) (q : QueryResult) : List String :=
  match q with
  | .ok => store
  | .nullData => []
  | .storeError => []
  | .thrown => []

/-- Outcome of the loader's startup connectivity probe. -/
inductive ConnOutcome where
  | ok
  | connError
deriving Repr, DecidableEq

/-- The row list `main` computes: transformed rows whose `exercise_id`
is not in the result of `checkExistingExercises` (the
`databaseExercises.filter(ex => !existingExercises.includes(ex.exercise_id))`
step). -/
def mainNewExercises (store : List String) (q : QueryResult)
    (jsonExercises : List ExerciseData) : List DatabaseExercise :=
  let existingExercises := checkExistingExercises store q
  let databaseExercises := jsonExercises.map mapExerciseToDatabase
  databaseExercises.filter (fun ex => ! existingExercises.contains ex.exercise_id)

/-- Number of insert calls a run of `main` issues: zero when the
connectivity probe fails (early `return`), zero when `newExercises` is
empty (early `return` before `insertExercisesInBatches`), otherwise one
call per batch of 100. -/
def mainInsertCallCount (conn : ConnOutcome) (store : List String)
    (q : QueryResult) (jsonExercises : List ExerciseData) : Nat :=
  match conn with
  | .connError => 0
  | .ok =>
    let newExercises := mainNewExercises store q jsonExercises
    if newExercises.length = 0 then 0
    else (chunkList 100 newExercises).length

/-! Activator: `src/scripts/activate-basic-exercises.ts`. -/

/-- A row as the activator sees it: the `select('id, name, exercise_id')`
columns plus the `is_active` flag the filters and the update touch. -/
structure ActRow where
  id : Nat
  name : String
  exercise_id : String
  is_active : Bool
deriving Repr, DecidableEq

/-- The hard-coded `BASIC_EXERCISES` list, in source order. -/
def BASIC_EXERCISES : List String :=
  ["push up", "bench press", "chest press", "chest fly",
   "pull up", "lat pulldown", "barbell row", "seated row",
   "squat", "deadlift", "lunge", "leg press", "calf raise",
   "shoulder press", "lateral raise", "rear delt fly",
   "bicep curl", "tricep extension", "hammer curl",
   "plank", "crunch", "russian twist", "mountain climber"]

/-- Case-insensitive substring match, modelling
`.ilike('name', ` followed by the percent-wrapped term: the lowercased
term occurs contiguously in the lowercased name. -/
def ilikeMatches (term : String) (name : String) : Bool :=
  decide (term.toList.map Char.toLower <:+: name.toList.map Char.toLower)

/-- The per-name search: rows matching the name case-insensitively with
`is_active = false` (the `.ilike(...).eq('is_active', false)` chain),
in store order. -/
def searchInactive (store : List ActRow) (term : String) : List ActRow :=
  store.filter (fun r => ilikeMatches term r.name && r.is_active == false)

/-- Outcome of one per-name search call: success with data, success
with null data, or a search error (`if (searchError)` branch). -/
inductive SearchOutcome where
  | ok
  | nullData
  | searchFailed
deriving Repr, DecidableEq

/-- Outcome of one single-row update call. -/
inductive UpdateOutcome where
  | ok
  | updateFailed
deriving Repr, DecidableEq

/-- Effect of the `update(\x7b is_active: true \x7d).eq('id', exercise.id)`
call on the store. -/
def applyUpdate (store : List ActRow) (rowId : Nat) : List ActRow :=
  store.map (fun r => if r.id = rowId then { r with is_active := true } else r)

/-- Result of one loop iteration of `activateBasicExercises`:
`updateCalls` lists the row ids passed to update calls issued during the
iteration (empty or a singleton), `store` is the store afterwards. -/
structure ActIterResult where
  updateCalls : List Nat
  store : List ActRow
deriving Repr, DecidableEq

/-- One iteration of the activator loop for `name`: on a search error,
`continue` with no update; on null or empty data, `continue` with no
update; otherwise update the first returned match (store order here),
the store changing only if the update call succeeds. -/
def activateIteration (sOut : SearchOutcome) (uOut : UpdateOutcome)
    (store : List ActRow) (name : String) : ActIterResult :=
  match sOut with
  | .searchFailed => { updateCalls := [], store := store }
  | .nullData => { updateCalls := [], store := store }
  | .ok =>
    match searchInactive store name with
    | [] => { updateCalls := [], store := store }
    | exercise :: _ =>
      match uOut with
      | .ok => { updateCalls := [exercise.id], store := applyUpdate store exercise.id }
      | .updateFailed => { updateCalls := [exercise.id], store := store }

/-- The activator's `for (const exerciseName of BASIC_EXERCISES)` loop
over an arbitrary name list, threading the store and collecting every
update call issued, tagged with the name of the iteration that issued
it.  `sOut` / `uOut` give the store's response to each name's search and
update call. -/
def activateLoop (sOut : String → SearchOutcome) (uOut : String → UpdateOutcome) :
    List String → List ActRow → List (String × Nat) × List ActRow
  | [], store => ([], store)
  | name :: rest, store =>
    let r := activateIteration (sOut name) (uOut name) store name
    let rec_result := activateLoop sOut uOut rest r.store
    (r.updateCalls.map (fun i => (name, i)) ++ rec_result.1, rec_result.2)

/-! Process exit behaviour. -/

/-- `!value` on a `process.env` string: true when the variable is unset
or set to the empty string (both are falsy in the source's
`if (!supabaseUrl || !supabaseServiceKey)` check). -/
def isFalsyEnv : Option String → Bool
  | none => true
  | some s => s.isEmpty

/-- The two environment variables both scripts read. -/
structure EnvConfig where
  supabaseUrl : Option String
  supabaseServiceKey : Option String
deriving Repr, DecidableEq

/-- The shared configuration guard at the top of both scripts. -/
def configMissing (cfg : EnvConfig) : Bool :=
  isFalsyEnv cfg.supabaseUrl || isFalsyEnv cfg.supabaseServiceKey

/-- How a script's top-level async function ends: it either runs its
`try` block to completion (early `return`s included), or an error is
thrown and reaches the outermost `catch`. -/
inductive TopLevelRun where
  | completes
  | throws
deriving Repr, DecidableEq

/-- Loader process exit status: `process.exit(1)` when configuration is
falsy; `main`'s catch block calls `process.exit(1)` on a top-level
error; otherwise the process ends normally with status 0. -/
def loaderExitCode (cfg : EnvConfig) (run : TopLevelRun) : Nat :=
  if configMissing cfg then 1
  else
    match run with
    | .completes => 0
    | .throws => 1

/-- Activator process exit status: `process.exit(1)` when configuration
is falsy; the catch block of `activateBasicExercises` only logs the
error and does not call `process.exit`, so the process ends normally
with status 0 whether or not a top-level error occurred. -/
def activatorExitCode (cfg : EnvConfig) (run : TopLevelRun) : Nat :=
  if configMissing cfg then 1
  else
    match run with
    | .completes => 0
    | .throws => 0

/-! Sample data used by the witness theorems. -/

/-- A concrete source record with every optional list present. -/
def sampleExercise : ExerciseData :=
  { exerciseId := "e1", name := "Push Up", gifUrl := "https://x/e1.gif"
    targetMuscles := some ["chest"], bodyParts := some []
    equipments := some [], secondaryMuscles := some []
    instructions := some ["step1"] }

/-- A concrete source record with every optional list missing. -/
def sampleBareExercise : ExerciseData :=
  { exerciseId := "e2", name := "Sit Up", gifUrl := "https://x/e2.gif"
    targetMuscles := none, bodyParts := none
    equipments := none, secondaryMuscles := none
    instructions := none }

/-- A concrete activator store with one inactive and one active row. -/
def sampleActStore : List ActRow :=
  [{ id := 1, name := "Barbell Bench Press", exercise_id := "e1", is_active := false },
   { id := 2, name := "Wide Push Up", exercise_id := "e2", is_active := true }]

/-- Three concrete database rows for batch witnesses. -/
def sampleRows : List DatabaseExercise :=
  [sampleExercise, sampleBareExercise, sampleExercise].map mapExerciseToDatabase

/-- A concrete outcome pattern: the first insert call fails with a store
error, the rest succeed. -/
def sampleOutcome : Nat → InsertOutcome :=
  fun idx => if idx = 0 then InsertOutcome.storeError else InsertOutcome.success

/-- A concrete search-outcome pattern: the search for "squat" fails,
every other search succeeds. -/
def sampleSearchOutcomes : String → SearchOutcome :=
  fun m => if m = "squat" then SearchOutcome.searchFailed else SearchOutcome.ok

/-- A concrete update-outcome pattern: every update succeeds. -/
def sampleUpdateOutcomes : String → UpdateOutcome :=
  fun _ => UpdateOutcome.ok

/-! Helper lemmas about the batch loop. -/

/-- Flattening the batches recovers the input list. -/
theorem chunkList_flatten (batchSize : Nat) (l : List α) :
    (chunkList batchSize l).flatten = l := by
  match l with
  | [] => simp [chunkList]
  | x :: xs =>
    have ih := chunkList_flatten batchSize (xs.drop (batchSize - 1))
    rw [chunkList]
    simp [ih]
termination_by l.length
decreasing_by simp [List.length_drop]; omega

/-- With a positive batch size, the number of batches is the ceiling of
`length / batchSize`, written `(length + batchSize - 1) / batchSize`. -/
theorem chunkList_length (batchSize : Nat) (hB : 0 < batchSize) (l : List α) :
    (chunkList batchSize l).length = (l.length + batchSize - 1) / batchSize := by
  match l with
  | [] =>
    rw [chunkList]
    simp only [List.length_nil]
    rw [Nat.div_eq_of_lt (by omega)]
  | x :: xs =>
    have ih := chunkList_length batchSize hB (xs.drop (batchSize - 1))
    rw [chunkList]
    simp only [List.length_cons, List.length_drop] at ih ⊢
    rw [ih]
    have h1 : xs.length + 1 + batchSize - 1 = xs.length + batchSize := by omega
    rw [h1, Nat.add_div_right _ hB]
    rcases Nat.lt_or_ge xs.length (batchSize - 1) with hlt | hge
    · have h2 : xs.length - (batchSize - 1) = 0 := by omega
      rw [h2, Nat.zero_add, Nat.div_eq_of_lt (by omega), Nat.div_eq_of_lt (by omega)]
    · have h2 : xs.length - (batchSize - 1) + batchSize - 1 = xs.length := by omega
      rw [h2]
termination_by l.length
decreasing_by simp [List.length_drop]; omega

/-- With a positive batch size, every batch holds at most `batchSize`
elements. -/
theorem chunkList_batch_size_le (batchSize : Nat) (hB : 0 < batchSize) (l : List α) :
    ∀ c ∈ chunkList batchSize l, c.length ≤ batchSize := by
  match l with
  | [] => simp [chunkList]
  | x :: xs =>
    have ih := chunkList_batch_size_le batchSize hB (xs.drop (batchSize - 1))
    rw [chunkList]
    intro c hc
    rcases List.mem_cons.mp hc with h | h
    · subst h
      simp only [List.length_cons, List.length_take]
      have := Nat.min_le_left (batchSize - 1) xs.length
      omega
    · exact ih c h
termination_by l.length
decreasing_by simp [List.length_drop]; omega

/-- The loop issues one insert call per batch, in order, regardless of
the outcomes. -/
theorem runBatchesFrom_attempted (outcome : Nat → InsertOutcome) (idx : Nat)
    (chunks : List (List DatabaseExercise)) :
    (runBatchesFrom outcome idx chunks).attempted = chunks := by
  induction chunks generalizing idx with
  | nil => rfl
  | cons b rest ih =>
    rw [runBatchesFrom]
    cases outcome idx <;> simp [ih]

/-- The error counter sums the sizes of exactly the batches whose insert
call did not succeed. -/
theorem runBatchesFrom_errorCount (outcome : Nat → InsertOutcome) (idx : Nat)
    (chunks : List (List DatabaseExercise)) :
    (runBatchesFrom outcome idx chunks).errorCount =
      (((chunks.enumFrom idx).filter
          (fun p => outcome p.1 != InsertOutcome.success)).map
        (fun p => p.2.length)).sum := by
  induction chunks generalizing idx with
  | nil => rfl
  | cons b rest ih =>
    rw [runBatchesFrom, List.enumFrom_cons]
    cases h : outcome idx <;>
      simp [List.filter_cons, h, ih, bne_iff_ne, beq_iff_eq]

/-- The inserted counter sums the sizes of exactly the batches whose
insert call succeeded. -/
theorem runBatchesFrom_insertedCount (outcome : Nat → InsertOutcome) (idx : Nat)
    (chunks : List (List DatabaseExercise)) :
    (runBatchesFrom outcome idx chunks).insertedCount =
      (((chunks.enumFrom idx).filter
          (fun p => outcome p.1 == InsertOutcome.success)).map
        (fun p => p.2.length)).sum := by
  induction chunks generalizing idx with
  | nil => rfl
  | cons b rest ih =>
    rw [runBatchesFrom, List.enumFrom_cons]
    cases h : outcome idx <;>
      simp [List.filter_cons, h, ih, bne_iff_ne, beq_iff_eq]

/-! Helper lemmas about the activator loop. -/

/-- An iteration whose search call fails is a no-op: the loop on
`n :: rest` equals the loop on `rest` from the same store. -/
theorem activateLoop_searchFailed_skip (sOut : String → SearchOutcome)
    (uOut : String → UpdateOutcome) (n : String) (rest : List String)
    (store : List ActRow) (h : sOut n = SearchOutcome.searchFailed) :
    activateLoop sOut uOut (n :: rest) store = activateLoop sOut uOut rest store := by
  rw [activateLoop, h]
  simp [activateIteration]

/-- A name whose search call fails contributes no update call anywhere
in the loop. -/
theorem activateLoop_no_calls_when_searchFailed (sOut : String → SearchOutcome)
    (uOut : String → UpdateOutcome) (n : String)
    (h : sOut n = SearchOutcome.searchFailed) :
    ∀ (names : List String) (store : List ActRow),
      ∀ p ∈ (activateLoop sOut uOut names store).1, p.1 ≠ n := by
  intro names
  induction names with
  | nil =>
    intro store p hp
    simp [activateLoop] at hp
  | cons m rest ih =>
    intro store p hp
    simp only [activateLoop] at hp
    rcases List.mem_append.mp hp with hp1 | hp2
    · rcases List.mem_map.mp hp1 with ⟨i, hi, rfl⟩
      intro hEq
      have hmn : m = n := hEq
      subst hmn
      rw [h] at hi
      simp [activateIteration] at hi
    · exact ih _ p hp2

/-! Claim theorems. -/

/-- C7: for every source record, the produced row has `is_active = false`
unconditionally, and `gif_path` equal to `gifs/<identifier>.gif` where
the identifier is the record's `exerciseId`. -/
theorem C7_active_false_and_gif_path (e : ExerciseData) :
    (mapExerciseToDatabase e).is_active = false ∧
    (mapExerciseToDatabase e).gif_path = "gifs/" ++ e.exerciseId ++ ".gif" := by
  refine ⟨rfl, ?_⟩
  simp [mapExerciseToDatabase, String.append_assoc]

/-- C8: for every source record, each of the four list attributes and
the instruction list that is missing in the input is the empty list on
the produced row (and the row's attributes are total fields, hence
always present). -/
theorem C8_missing_lists_default_empty (e : ExerciseData) :
    (e.targetMuscles = none → (mapExerciseToDatabase e).target_muscles = []) ∧
    (e.bodyParts = none → (mapExerciseToDatabase e).body_parts = []) ∧
    (e.equipments = none → (mapExerciseToDatabase e).equipments = []) ∧
    (e.secondaryMuscles = none → (mapExerciseToDatabase e).secondary_muscles = []) ∧
    (e.instructions = none → (mapExerciseToDatabase e).instructions = []) := by
  refine ⟨fun h => ?_, fun h => ?_, fun h => ?_, fun h => ?_, fun h => ?_⟩ <;>
    simp [mapExerciseToDatabase, h]

/-- Witness for C8 at a concrete record with every optional list
missing. -/
theorem C8_witness :
    (mapExerciseToDatabase sampleBareExercise).target_muscles = [] ∧
    (mapExerciseToDatabase sampleBareExercise).body_parts = [] ∧
    (mapExerciseToDatabase sampleBareExercise).equipments = [] ∧
    (mapExerciseToDatabase sampleBareExercise).secondary_muscles = [] ∧
    (mapExerciseToDatabase sampleBareExercise).instructions = [] :=
  ⟨(C8_missing_lists_default_empty sampleBareExercise).1 rfl,
   (C8_missing_lists_default_empty sampleBareExercise).2.1 rfl,
   (C8_missing_lists_default_empty sampleBareExercise).2.2.1 rfl,
   (C8_missing_lists_default_empty sampleBareExercise).2.2.2.1 rfl,
   (C8_missing_lists_default_empty sampleBareExercise).2.2.2.2 rfl⟩

/-- C1: if the existing-identifier query succeeds and every source
record's identifier is already in the store, the identifier filter
removes every transformed row and the run issues zero insert calls
(whatever the connectivity probe did). -/
theorem C1_second_run_zero_insert_calls (conn : ConnOutcome) (store : List String)
    (json : List ExerciseData)
    (hall : ∀ e ∈ json, store.contains e.exerciseId = true) :
    mainNewExercises store QueryResult.ok json = [] ∧
    mainInsertCallCount conn store QueryResult.ok json = 0 := by
  have hnew : mainNewExercises store QueryResult.ok json = [] := by
    unfold mainNewExercises checkExistingExercises
    rw [List.filter_eq_nil_iff]
    intro ex hex
    rcases List.mem_map.mp hex with ⟨e, he, rfl⟩
    simp only [mapExerciseToDatabase, Bool.not_eq_true', Bool.not_eq_false]
    simpa using hall e he
  refine ⟨hnew, ?_⟩
  cases conn
  · simp [mainInsertCallCount, hnew]
  · rfl

/-- Witness for C1: a store already holding both identifiers of a
two-record input file. -/
theorem C1_witness :
    mainNewExercises ["e1", "e2"] QueryResult.ok [sampleExercise, sampleBareExercise] = [] ∧
    mainInsertCallCount ConnOutcome.ok ["e1", "e2"] QueryResult.ok
      [sampleExercise, sampleBareExercise] = 0 :=
  C1_second_run_zero_insert_calls ConnOutcome.ok ["e1", "e2"]
    [sampleExercise, sampleBareExercise] (by decide)

/-- C6: when the existing-identifier query fails with a store error or a
thrown exception, `checkExistingExercises` returns the empty list and
every transformed row is considered new (the filter keeps the whole
mapped list). -/
theorem C6_query_failure_empty_existing (store : List String) (q : QueryResult)
    (json : List ExerciseData)
    (hq : q = QueryResult.storeError ∨ q = QueryResult.thrown) :
    checkExistingExercises store q = [] ∧
    mainNewExercises store q json = json.map mapExerciseToDatabase := by
  rcases hq with rfl | rfl <;>
    exact ⟨rfl, by simp [mainNewExercises, checkExistingExercises]⟩

/-- Witness for C6 at a populated store and a failing query. -/
theorem C6_witness :
    checkExistingExercises ["e1", "e2"] QueryResult.storeError = [] ∧
    mainNewExercises ["e1", "e2"] QueryResult.storeError [sampleExercise] =
      [sampleExercise].map mapExerciseToDatabase :=
  C6_query_failure_empty_existing ["e1", "e2"] QueryResult.storeError
    [sampleExercise] (Or.inl rfl)

/-- C3: whatever the per-batch outcome pattern, every batch is attempted
(a failed batch never stops later ones), the failed count is the sum of
the sizes of exactly the failed batches, and the inserted count is the
sum of the sizes of the successful batches. -/
theorem C3_partial_failure_counts (outcome : Nat → InsertOutcome)
    (l : List DatabaseExercise) (batchSize : Nat) (hB : 0 < batchSize) :
    (insertExercisesInBatches outcome l batchSize).attempted = chunkList batchSize l ∧
    (insertExercisesInBatches outcome l batchSize).errorCount =
      ((((chunkList batchSize l).enum).filter
          (fun p => outcome p.1 != InsertOutcome.success)).map
        (fun p => p.2.length)).sum ∧
    (insertExercisesInBatches outcome l batchSize).insertedCount =
      ((((chunkList batchSize l).enum).filter
          (fun p => outcome p.1 == InsertOutcome.success)).map
        (fun p => p.2.length)).sum :=
  ⟨runBatchesFrom_attempted outcome 0 (chunkList batchSize l),
   runBatchesFrom_errorCount outcome 0 (chunkList batchSize l),
   runBatchesFrom_insertedCount outcome 0 (chunkList batchSize l)⟩

/-- Witness for C3: three rows in batches of two, the first batch
failing with a store error and the second succeeding. -/
theorem C3_witness :
    0 < 2 ∧
    ((insertExercisesInBatches sampleOutcome sampleRows 2).attempted =
        chunkList 2 sampleRows ∧
      (insertExercisesInBatches sampleOutcome sampleRows 2).errorCount =
        ((((chunkList 2 sampleRows).enum).filter
            (fun p => sampleOutcome p.1 != InsertOutcome.success)).map
          (fun p => p.2.length)).sum ∧
      (insertExercisesInBatches sampleOutcome sampleRows 2).insertedCount =
        ((((chunkList 2 sampleRows).enum).filter
            (fun p => sampleOutcome p.1 == InsertOutcome.success)).map
          (fun p => p.2.length)).sum) :=
  ⟨by decide, C3_partial_failure_counts sampleOutcome sampleRows 2 (by decide)⟩

/-- C4: for a non-empty input and positive batch size, the loop issues
exactly `ceil(N / B) = (N + B - 1) / B` insert calls, each carrying at
most `B` rows. -/
theorem C4_batch_count_and_size (outcome : Nat → InsertOutcome)
    (l : List DatabaseExercise) (batchSize : Nat)
    (hN : 0 < l.length) (hB : 0 < batchSize) :
    (insertExercisesInBatches outcome l batchSize).attempted.length =
      (l.length + batchSize - 1) / batchSize ∧
    ∀ c ∈ (insertExercisesInBatches outcome l batchSize).attempted,
      c.length ≤ batchSize := by
  have ha : (insertExercisesInBatches outcome l batchSize).attempted =
      chunkList batchSize l :=
    runBatchesFrom_attempted outcome 0 (chunkList batchSize l)
  rw [ha]
  exact ⟨chunkList_length batchSize hB l, chunkList_batch_size_le batchSize hB l⟩

/-- Witness for C4: three rows in batches of two give two insert calls
of sizes two and one. -/
theorem C4_witness :
    0 < sampleRows.length ∧ 0 < 2 ∧
    ((insertExercisesInBatches sampleOutcome sampleRows 2).attempted.length =
        (sampleRows.length + 2 - 1) / 2 ∧
      ∀ c ∈ (insertExercisesInBatches sampleOutcome sampleRows 2).attempted,
        c.length ≤ 2) :=
  ⟨by decide, by decide,
   C4_batch_count_and_size sampleOutcome sampleRows 2 (by decide) (by decide)⟩

/-- C9: the concatenation of the submitted batches, in submission order,
is exactly the input list: no row is dropped, duplicated, or
reordered. -/
theorem C9_batches_concat_eq_input (outcome : Nat → InsertOutcome)
    (l : List DatabaseExercise) (batchSize : Nat) (hB : 0 < batchSize) :
    (insertExercisesInBatches outcome l batchSize).attempted.flatten = l := by
  rw [show (insertExercisesInBatches outcome l batchSize).attempted =
        chunkList batchSize l from
      runBatchesFrom_attempted outcome 0 (chunkList batchSize l)]
  exact chunkList_flatten batchSize l

/-- Witness for C9 at three concrete rows and batch size two. -/
theorem C9_witness :
    0 < 2 ∧
    (insertExercisesInBatches sampleOutcome sampleRows 2).attempted.flatten =
      sampleRows :=
  ⟨by decide, C9_batches_concat_eq_input sampleOutcome sampleRows 2 (by decide)⟩

/-- C5: for a name in the fixed list whose case-insensitive search over
inactive rows returns zero matches, the iteration issues no update call
and leaves the store — in particular its inactive rows and their count —
unchanged. -/
theorem C5_zero_match_frame (store : List ActRow) (name : String)
    (uOut : UpdateOutcome) (hmem : name ∈ BASIC_EXERCISES)
    (hzero : searchInactive store name = []) :
    (activateIteration SearchOutcome.ok uOut store name).updateCalls = [] ∧
    (activateIteration SearchOutcome.ok uOut store name).store = store ∧
    (activateIteration SearchOutcome.ok uOut store name).store.filter
        (fun r => r.is_active == false) =
      store.filter (fun r => r.is_active == false) ∧
    ((activateIteration SearchOutcome.ok uOut store name).store.filter
        (fun r => r.is_active == false)).length =
      (store.filter (fun r => r.is_active == false)).length := by
  simp [activateIteration, hzero]

/-- Witness for C5: "squat" has no match in the sample store. -/
theorem C5_witness :
    "squat" ∈ BASIC_EXERCISES ∧
    ((activateIteration SearchOutcome.ok UpdateOutcome.ok sampleActStore "squat").updateCalls = [] ∧
      (activateIteration SearchOutcome.ok UpdateOutcome.ok sampleActStore "squat").store =
        sampleActStore ∧
      (activateIteration SearchOutcome.ok UpdateOutcome.ok sampleActStore "squat").store.filter
          (fun r => r.is_active == false) =
        sampleActStore.filter (fun r => r.is_active == false) ∧
      ((activateIteration SearchOutcome.ok UpdateOutcome.ok sampleActStore "squat").store.filter
          (fun r => r.is_active == false)).length =
        (sampleActStore.filter (fun r => r.is_active == false)).length) :=
  ⟨by decide,
   C5_zero_match_frame sampleActStore "squat" UpdateOutcome.ok (by decide) (by decide)⟩

/-- C10: for a name in the fixed list whose per-name search returns an
error, the loop over the fixed list issues no update call tagged with
that name, and the failed iteration is a no-op: from any store, the loop
on that name followed by any remaining names equals the loop on the
remaining names alone. -/
theorem C10_search_error_isolated (sOut : String → SearchOutcome)
    (uOut : String → UpdateOutcome) (store store2 : List ActRow)
    (rest : List String) (n : String)
    (hmem : n ∈ BASIC_EXERCISES) (h : sOut n = SearchOutcome.searchFailed) :
    ((activateLoop sOut uOut BASIC_EXERCISES store).1.all
        (fun p => p.1 != n)) = true ∧
    activateLoop sOut uOut (n :: rest) store2 = activateLoop sOut uOut rest store2 := by
  refine ⟨?_, activateLoop_searchFailed_skip sOut uOut n rest store2 h⟩
  rw [List.all_eq_true]
  intro p hp
  have hne := activateLoop_no_calls_when_searchFailed sOut uOut n h
    BASIC_EXERCISES store p hp
  simpa [bne_iff_ne] using hne

/-- Witness for C10: the search for "squat" fails, the rest succeed. -/
theorem C10_witness :
    "squat" ∈ BASIC_EXERCISES ∧
    (((activateLoop sampleSearchOutcomes sampleUpdateOutcomes BASIC_EXERCISES
          sampleActStore).1.all (fun p => p.1 != "squat")) = true ∧
      activateLoop sampleSearchOutcomes sampleUpdateOutcomes ["squat", "push up"]
          sampleActStore =
        activateLoop sampleSearchOutcomes sampleUpdateOutcomes ["push up"]
          sampleActStore) :=
  ⟨by decide,
   C10_search_error_isolated sampleSearchOutcomes sampleUpdateOutcomes
     sampleActStore sampleActStore ["push up"] "squat" (by decide) (by decide)⟩

/-- C2 counterexample: the claim requires both scripts to exit non-zero
when an unhandled error reaches the top level, but the activator's
top-level catch only logs the error, so with configuration present and a
top-level error the activator process exits 0. -/
theorem C2_counterexample :
    configMissing
        { supabaseUrl := some "https://example.supabase.co",
          supabaseServiceKey := some "service-role-key" } = false ∧
    activatorExitCode
        { supabaseUrl := some "https://example.supabase.co",
          supabaseServiceKey := some "service-role-key" }
      TopLevelRun.throws = 0 :=
  ⟨by decide, by decide⟩

/-- C2 amended: the loader exits non-zero exactly when configuration is
falsy or a top-level error reaches `main`'s catch; the activator exits
non-zero exactly when configuration is falsy — its top-level catch logs
the error and the process still exits zero. -/
theorem C2_exit_code_characterization (cfg : EnvConfig) (run : TopLevelRun) :
    (loaderExitCode cfg run ≠ 0 ↔
      (configMissing cfg = true ∨ run = TopLevelRun.throws)) ∧
    (activatorExitCode cfg run ≠ 0 ↔ configMissing cfg = true) := by
  cases run <;> by_cases h : configMissing cfg = true <;>
    simp [loaderExitCode, activatorExitCode, h]

end ExerciseDB
